import Mathlib

/-!
# Shallow embedding of `simple_audio`'s decode engine (`src/rust/src/audio/decoder.rs`)

The engine (`Decoder`) owns at most one active `Playback` session, at most one
preload thread, and an optional `CpalOutput` sink.  Shared process-wide state
(`SEEK_TS`, `IS_LOOPING`, `IS_FILE_PRELOADED`, `IS_PLAYING`, `PROGRESS`) and the
published streams (progress, playback state, callbacks) are gathered in a `Ctx`
record that every operation threads explicitly.

External collaborators (symphonia's demuxer/decoder, cpal's output stream) are
modelled at their interface:
* a `Reader` is the remaining packet list plus an abstract coarse-seek function
  (target seconds ↦ repositioned packet list and the `required_ts` the seek
  reports, `none` when the seek errors);
* decoding a `Packet` succeeds iff its `good` flag is set and then yields the
  packet's `buf`;
* `CpalOutput` is a ring buffer of written sample buffers; `flush` drains the
  buffered samples to the device, `skip_all` discards them.

Rust's `&mut self` methods returning `anyhow::Result` are embedded as functions
returning the mutated state together with an explicit outcome, so that
mutations performed before an early `?` return are kept, exactly as in Rust.
-/

/-- Models `DecoderState` from decoder.rs: `Playing | Paused | Idle`. -/
inductive DecoderState
  | Playing
  | Paused
  | Idle
  deriving DecidableEq, Repr

def DecoderState.is_idle : DecoderState → Bool
  | .Idle => true
  | _ => false

def DecoderState.is_paused : DecoderState → Bool
  | .Paused => true
  | _ => false

/-- A decoded sample buffer (symphonia `AudioBuffer`): its stream spec, its
capacity, and the decoded samples, all abstract. -/
structure AudioBuf where
  spec : Nat
  capacity : Nat
  samples : List Int
  deriving DecidableEq, Repr

/-- A demuxed packet: track id, timestamp (in timebase units), whether the
codec decodes it successfully, and the buffer decoding yields when it does. -/
structure Packet where
  track_id : Nat
  ts : Nat
  good : Bool
  buf : AudioBuf
  deriving DecidableEq, Repr

/-- symphonia `TimeBase`: a rational number of seconds per timestamp unit. -/
structure TimeBase where
  numer : Nat
  denom : Nat
  deriving DecidableEq, Repr

/-- Models `TimeBase::calc_time(ts).seconds`: whole seconds of `ts` timestamp units. -/
def TimeBase.calc_time_seconds (tb : TimeBase) (ts : Nat) : Nat :=
  ts * tb.numer / tb.denom

/-- Opaque model of the symphonia codec decoder's mutable internal state.
`reset` restores the fresh state; decoding a packet leaves the fresh state. -/
structure CodecDecoder where
  isFresh : Bool
  deriving DecidableEq, Repr

/-- A fresh codec decoder, as `get_codecs().make(..)` returns. -/
def CodecDecoder.init : CodecDecoder := ⟨true⟩

/-- Models `decoder.reset()`: restore the decoder's initial internal state. -/
def CodecDecoder.reset (_ : CodecDecoder) : CodecDecoder := ⟨true⟩

/-- Models `decoder.decode(&packet)`: fails iff the packet is corrupt, otherwise
yields the packet's decoded buffer; the decoder's state is no longer fresh. -/
def CodecDecoder.decode (_ : CodecDecoder) (p : Packet) :
    CodecDecoder × Option AudioBuf :=
  (⟨false⟩, if p.good then some p.buf else none)

/-- symphonia `FormatReader` at its interface: the packets still to be
demuxed, and the coarse-seek behaviour.  `seekFn t` returns the repositioned
packet list together with the `required_ts` of `SeekedTo`, or `none` when the
seek call errors. -/
structure Reader where
  packets : List Packet
  seekFn : Nat → Option (List Packet × Nat)

/-- Models `reader.next_packet()`: the next packet, or `none` at end of stream. -/
def Reader.next_packet (r : Reader) : Option (Packet × Reader) :=
  match r.packets with
  | [] => none
  | p :: rest => some (p, { r with packets := rest })

/-- Models `reader.seek(SeekMode::Coarse, SeekTo::Time { t, .. })`. -/
def Reader.seek (r : Reader) (t : Nat) : Reader × Option Nat :=
  match r.seekFn t with
  | some (ps, req) => ({ r with packets := ps }, some req)
  | none => (r, none)

/-- A track of the probed container (symphonia `Track` / `CodecParameters`):
the fields `open` reads. -/
structure Track where
  id : Nat
  time_base : Option TimeBase
  n_frames : Option Nat
  start_ts : Nat
  deriving DecidableEq, Repr

/-- A media source as the probe/codec collaborators see it: whether probing
finds a format reader, the container's tracks (`default_track` is the first),
whether a codec decoder can be made for the default track, the packet stream,
and the reader's seek behaviour. -/
structure MediaSource where
  probe_ok : Bool
  tracks : List Track
  codec_ok : Bool
  packets : List Packet
  seekFn : Nat → Option (List Packet × Nat)

/-- Models `Playback` from decoder.rs: reader, selected track, codec decoder,
optional timebase, duration in seconds, optional pre-decoded buffer. -/
structure Playback where
  reader : Reader
  track_id : Nat
  decoder : CodecDecoder
  timebase : Option TimeBase
  duration : Nat
  preload : Option AudioBuf

/-- Models `CpalOutput` at the interface the engine consumes: the stream spec and
capacity it was built with, the ring buffer of written-but-unread sample
buffers, the samples already drained to the device, and the stream's
play/pause toggle. -/
structure CpalOutput where
  spec : Nat
  capacity : Nat
  ring : List AudioBuf
  consumed : List AudioBuf
  stream_paused : Bool
  deriving DecidableEq, Repr

/-- Models `CpalOutput::new(spec, duration)`. -/
def CpalOutput.new (spec capacity : Nat) : CpalOutput :=
  { spec := spec, capacity := capacity, ring := [], consumed := [],
    stream_paused := false }

/-- Models `cpal_output.write(buffer)`: append the buffer to the ring buffer. -/
def CpalOutput.write (c : CpalOutput) (b : AudioBuf) : CpalOutput :=
  { c with ring := c.ring ++ [b] }

/-- Models `cpal_output.flush()`: block until the device drains the ring buffer. -/
def CpalOutput.flush (c : CpalOutput) : CpalOutput :=
  { c with ring := [], consumed := c.consumed ++ c.ring }

/-- Models `ring_buffer_reader.skip_all()`: discard buffered-but-unread samples. -/
def CpalOutput.skip_all (c : CpalOutput) : CpalOutput :=
  { c with ring := [] }

/-- Models `stream.play()`. -/
def CpalOutput.stream_play (c : CpalOutput) : CpalOutput :=
  { c with stream_paused := false }

/-- Models `stream.pause()`. -/
def CpalOutput.stream_pause (c : CpalOutput) : CpalOutput :=
  { c with stream_paused := true }

/-- Models `ProgressState` published to the progress stream. -/
structure ProgressState where
  position : Nat
  duration : Nat
  deriving DecidableEq, Repr

/-- Playback-state notifications published toward the bridging layer. -/
inductive PlaybackState
  | Playing
  | Paused
  | Done
  deriving DecidableEq, Repr

/-- Models `Callback` notifications published toward the bridging layer. -/
inductive Callback
  | DecodeError
  | PlaybackLooped
  deriving DecidableEq, Repr

/-- Models `ThreadMessage`: the commands consumed from the channel. -/
inductive ThreadMessage
  | Open (source : MediaSource)
  | Play
  | Pause
  | Stop
  | Preload (source : MediaSource)
  | PlayPreload
  | DeviceChanged
  | Dispose

/-- Shared process-wide state and the published observer streams:
`SEEK_TS`, `IS_LOOPING`, `IS_FILE_PRELOADED`, `IS_PLAYING`, `PROGRESS`, and
the progress / playback-state / callback streams (each a list of the events
published so far, newest last). -/
structure Ctx where
  seek_ts : Option Nat
  is_looping : Bool
  is_file_preloaded : Bool
  is_playing : Bool
  progress : ProgressState
  progress_events : List ProgressState
  playback_states : List PlaybackState
  callbacks : List Callback
  metadata_state : Option PlaybackState

/-- The result of `Decoder::open`: a playback, an `anyhow` error, or a panic
(`ts.unwrap()` on `None`). -/
inductive OpenResult
  | ok (p : Playback)
  | err
  | panicked

/-- Models `Decoder::open(source)`: probe the source, take the default track, make a
codec decoder, and compute the duration once from `n_frames` and the timebase.
Note the translation of `ts.unwrap()`: when a timebase exists but `n_frames`
is `None`, the Rust code panics. -/
def Decoder.openSource (source : MediaSource) : OpenResult :=
  if !source.probe_ok then .err
  else
    match source.tracks.head? with
    | none => .err
    | some track =>
      if !source.codec_ok then .err
      else
        let timebase := track.time_base
        let ts := track.n_frames.map (fun frames => track.start_ts + frames)
        match timebase with
        | some tb =>
          match ts with
          | none => .panicked
          | some t =>
            .ok { reader := { packets := source.packets, seekFn := source.seekFn },
                  track_id := track.id,
                  decoder := CodecDecoder.init,
                  timebase := some tb,
                  duration := tb.calc_time_seconds t,
                  preload := none }
        | none =>
          .ok { reader := { packets := source.packets, seekFn := source.seekFn },
                track_id := track.id,
                decoder := CodecDecoder.init,
                timebase := none,
                duration := 0,
                preload := none }

/-- The body of the thread spawned by `Decoder::preload(source)`: open the
source, demux its first packet, decode it and store an owned copy in the
playback's `preload` field.  A panic inside the thread surfaces as a join
error, so panics and `anyhow` errors collapse to `Except.error`. -/
def preloadRun (source : MediaSource) : Except Unit Playback :=
  match Decoder.openSource source with
  | .err => .error ()
  | .panicked => .error ()
  | .ok playback =>
    match playback.reader.next_packet with
    | none => .error ()
    | some (packet, reader') =>
      let (dec', decoded) := playback.decoder.decode packet
      match decoded with
      | none => .error ()
      | some buf =>
        .ok { playback with reader := reader', decoder := dec',
                            preload := some buf }

/-- The preload thread's join handle: its eventual result.  Whether
`is_finished()` observes completion at a given poll is an input of each
engine iteration. -/
structure PreloadThread where
  result : Except Unit Playback

/-- Models `Decoder::preload(source)`: spawn the preload thread. -/
def Decoder.spawnPreload (source : MediaSource) : PreloadThread :=
  ⟨preloadRun source⟩

/-- The `Decoder` struct: engine state machine, optional sink, active
playback, completed preloaded playback, and in-flight preload thread. -/
structure Decoder where
  state : DecoderState
  cpal_output : Option CpalOutput
  playback : Option Playback
  preload_playback : Option Playback
  preload_thread : Option PreloadThread

/-- Outcome of `listen_for_message`: `Ok(false)`, `Ok(true)` (dispose),
`Err(_)` (surfaced by `start` as a `DecodeError`), or a panic inside a
handler (the `ts.unwrap()` in `open`). -/
inductive ListenOutcome
  | cont
  | disposed
  | err
  | panicked
  deriving DecidableEq, Repr

/-- Modelled from the spec: `crate::Player::internal_pause` is not under
`src/`.  Per §4.1 (`DeviceChanged` → `Paused`, side effect "drop sink;
external pause notification") it moves the engine to `Paused`, clears the
playing flag, and publishes a `Paused` playback state. -/
def Player.internal_pause (d : Decoder) (ctx : Ctx) : Decoder × Ctx :=
  ({ d with state := .Paused },
   { ctx with is_playing := false,
              playback_states := ctx.playback_states ++ [.Paused] })

/-- Modelled from the spec: `crate::Player::internal_play` is not under
`src/`.  Per §4.1 (`PlayPreload` → `Playing`, side effect "resume sink") it
moves the engine to `Playing`, sets the playing flag, and publishes a
`Playing` playback state. -/
def Player.internal_play (d : Decoder) (ctx : Ctx) : Decoder × Ctx :=
  ({ d with state := .Playing },
   { ctx with is_playing := true,
              playback_states := ctx.playback_states ++ [.Playing] })

/-- Models `listen_for_message`, applied to the message the channel yielded (if
any; when the state is `Idle`/`Paused` the Rust code blocks, so the caller
passes `some`).  The sink's `stream.play()`/`stream.pause()` calls are the
non-Windows branch of the `cfg!` and are modelled as always succeeding
(collaborator).  Mutations performed before an early `?` return are kept:
`Open` clears the sink before attempting the open. -/
def Decoder.listen_for_message (d : Decoder) (ctx : Ctx)
    (recv : Option ThreadMessage) : Decoder × Ctx × ListenOutcome :=
  match recv with
  | none => (d, ctx, .cont)
  | some message =>
    match message with
    | .Dispose => (d, ctx, .disposed)
    | .Open source =>
      let d := { d with cpal_output := none }
      match Decoder.openSource source with
      | .ok playback => ({ d with playback := some playback }, ctx, .cont)
      | .err => (d, ctx, .err)
      | .panicked => (d, ctx, .panicked)
    | .Play =>
      let d := { d with state := .Playing }
      ({ d with cpal_output := d.cpal_output.map CpalOutput.stream_play },
       ctx, .cont)
    | .Pause =>
      let d := { d with state := .Paused }
      ({ d with cpal_output := d.cpal_output.map CpalOutput.stream_pause },
       ctx, .cont)
    | .Stop =>
      ({ d with state := .Idle, cpal_output := none, playback := none },
       ctx, .cont)
    | .DeviceChanged =>
      let d := { d with cpal_output := none }
      let (d, ctx) := Player.internal_pause d ctx
      (d, ctx, .cont)
    | .Preload source =>
      ({ d with preload_playback := none,
                preload_thread := some (Decoder.spawnPreload source) },
       { ctx with is_file_preloaded := false }, .cont)
    | .PlayPreload =>
      if d.preload_playback.isNone then (d, ctx, .cont)
      else
        let (d, ctx) := Player.internal_play d ctx
        ({ d with cpal_output := none, playback := d.preload_playback,
                  preload_playback := none },
         { ctx with is_file_preloaded := false }, .cont)

/-- Outcome of `do_playback`: `Ok(true)` (playback complete), `Ok(false)`,
or `Err(_)` (surfaced by `start` as a `DecodeError`). -/
inductive PlaybackOutcome
  | complete
  | notComplete
  | err
  deriving DecidableEq, Repr

/-- Models `do_playback`, translated branch for branch.  Note that the local
`seek_ts` captured from the reader's `SeekedTo` is dropped when the
seek-applying call returns `Ok(false)`: on every later call it is `0`. -/
def Decoder.do_playback (d : Decoder) (ctx : Ctx) :
    Decoder × Ctx × PlaybackOutcome :=
  match d.playback with
  | none => (d, ctx, .notComplete)
  | some playback =>
    match playback.preload with
    | some preload =>
      let playback := { playback with preload := none }
      let cpal_output :=
        match d.cpal_output with
        | none => CpalOutput.new preload.spec preload.capacity
        | some c => c
      let cpal_output := cpal_output.write preload
      ({ d with playback := some playback, cpal_output := some cpal_output },
       ctx, .notComplete)
    | none =>
      let (playback, seek_ts) :=
        match ctx.seek_ts with
        | some t =>
          let (reader, res) := playback.reader.seek t
          ({ playback with reader := reader },
           match res with
           | some req => req
           | none => 0)
        | none => (playback, 0)
      if ctx.seek_ts.isSome then
        let playback := { playback with decoder := playback.decoder.reset }
        let cpal_output := d.cpal_output.map CpalOutput.skip_all
        ({ d with playback := some playback, cpal_output := cpal_output },
         { ctx with seek_ts := none }, .notComplete)
      else
        match playback.reader.next_packet with
        | none =>
          if ctx.is_looping then
            ({ d with playback := some playback },
             { ctx with seek_ts := some 0,
                        callbacks := ctx.callbacks ++ [.PlaybackLooped] },
             .notComplete)
          else
            ({ d with playback := some playback }, ctx, .complete)
        | some (packet, reader) =>
          let playback := { playback with reader := reader }
          if packet.track_id ≠ playback.track_id then
            ({ d with playback := some playback }, ctx, .notComplete)
          else
            let (dec, decoded) := playback.decoder.decode packet
            let playback := { playback with decoder := dec }
            match decoded with
            | none => ({ d with playback := some playback }, ctx, .err)
            | some decoded =>
              if packet.ts < seek_ts then
                ({ d with playback := some playback }, ctx, .notComplete)
              else
                let position :=
                  match playback.timebase with
                  | some timebase => timebase.calc_time_seconds packet.ts
                  | none => 0
                let progress : ProgressState :=
                  { position := position, duration := playback.duration }
                let ctx := { ctx with
                  progress_events := ctx.progress_events ++ [progress],
                  progress := progress }
                let cpal_output :=
                  match d.cpal_output with
                  | none => CpalOutput.new decoded.spec decoded.capacity
                  | some c => c
                let cpal_output := cpal_output.write decoded
                ({ d with playback := some playback,
                          cpal_output := some cpal_output },
                 ctx, .notComplete)

/-- Models `finish_playback`: flush the sink, publish `Done`, zero the progress,
clear the playing flag, record the metadata playback state. -/
def Decoder.finish_playback (d : Decoder) (ctx : Ctx) : Decoder × Ctx :=
  ({ d with cpal_output := d.cpal_output.map CpalOutput.flush },
   { ctx with
     playback_states := ctx.playback_states ++ [.Done],
     progress_events := ctx.progress_events ++ [⟨0, 0⟩],
     progress := ⟨0, 0⟩,
     is_playing := false,
     metadata_state := some .Done })

/-- Models `poll_preload_thread`, with `fin` the value `is_finished()` returns at
this poll.  The `Bool` in the result is `true` when the function returned
`Err(_)` (surfaced by `start` as a `DecodeError`). -/
def Decoder.poll_preload_thread (d : Decoder) (ctx : Ctx) (fin : Bool) :
    Decoder × Ctx × Bool :=
  match d.preload_thread with
  | none => (d, ctx, false)
  | some handle =>
    if !fin then (d, ctx, false)
    else
      let d := { d with preload_thread := none }
      match handle.result with
      | .error _ => (d, ctx, true)
      | .ok result =>
        ({ d with preload_playback := some result },
         { ctx with is_file_preloaded := true }, false)

/-- The playback part of one `start` iteration (`decoder.rs` lines 88–97):
run `do_playback`; on completion set the state to `Idle` and run
`finish_playback`; on error publish a `DecodeError`. -/
def Decoder.playback_step (d : Decoder) (ctx : Ctx) : Decoder × Ctx :=
  let r := d.do_playback ctx
  match r.2.2 with
  | .complete => Decoder.finish_playback { r.1 with state := .Idle } r.2.1
  | .notComplete => (r.1, r.2.1)
  | .err =>
    (r.1, { r.2.1 with callbacks := r.2.1.callbacks ++ [.DecodeError] })

/-- The environment-supplied inputs of one `start` iteration: what the
preload thread's `is_finished()` reports at this poll, and the message (if
any) the channel yields. -/
structure IterInput where
  fin : Bool
  msg : Option ThreadMessage

/-- How an iteration of `start` ends: loop continues, `Dispose` breaks the
loop, or a panic crashes the thread. -/
inductive IterOutcome
  | cont
  | disposed
  | crashed
  deriving DecidableEq, Repr

/-- One iteration of `Decoder::start`'s loop: poll the preload thread
(surfacing a `DecodeError` on failure), listen for one message (surfacing a
`DecodeError` on failure, breaking on `Dispose`), then, unless idle or
paused, perform one playback step. -/
def Decoder.engine_iter (d : Decoder) (ctx : Ctx) (inp : IterInput) :
    Decoder × Ctx × IterOutcome :=
  let p := d.poll_preload_thread ctx inp.fin
  let d := p.1
  let ctx :=
    if p.2.2 then { p.2.1 with callbacks := p.2.1.callbacks ++ [.DecodeError] }
    else p.2.1
  let l := d.listen_for_message ctx inp.msg
  let d := l.1
  match l.2.2 with
  | .disposed => (d, l.2.1, .disposed)
  | .panicked => (d, l.2.1, .crashed)
  | out =>
    let ctx :=
      if out = .err then
        { l.2.1 with callbacks := l.2.1.callbacks ++ [.DecodeError] }
      else l.2.1
    if d.state.is_idle || d.state.is_paused then (d, ctx, .cont)
    else
      let s := d.playback_step ctx
      (s.1, s.2, .cont)

/-- The states reached after each iteration of `start` on a list of
iteration inputs, stopping when the loop breaks or the thread crashes. -/
def Decoder.runStates (d : Decoder) (ctx : Ctx) :
    List IterInput → List (Decoder × Ctx)
  | [] => []
  | inp :: rest =>
    let r := d.engine_iter ctx inp
    (r.1, r.2.1) ::
      (if r.2.2 = .cont then Decoder.runStates r.1 r.2.1 rest else [])

/-! ## Concrete fixtures used by the witnesses and counterexamples -/

/-- A concrete decoded sample buffer. -/
def bufA : AudioBuf := { spec := 1, capacity := 4, samples := [1, 2] }

/-- A good packet of track 0 with the given timestamp. -/
def pktGood (ts : Nat) : Packet :=
  { track_id := 0, ts := ts, good := true, buf := bufA }

/-- A corrupt packet of track 0. -/
def pktBad : Packet := { track_id := 0, ts := 7, good := false, buf := bufA }

/-- A sink holding one buffered (not yet consumed) sample buffer. -/
def sinkEx : CpalOutput :=
  { spec := 1, capacity := 4, ring := [bufA], consumed := [],
    stream_paused := false }

/-- A reader over the given packets whose seek always errors. -/
def readerEx (ps : List Packet) : Reader :=
  { packets := ps, seekFn := fun _ => none }

/-- A playback session over the given packets, track 0, timebase 1/1,
duration 9 s. -/
def playbackEx (ps : List Packet) : Playback :=
  { reader := readerEx ps, track_id := 0, decoder := CodecDecoder.init,
    timebase := some ⟨1, 1⟩, duration := 9, preload := none }

/-- A shared-state snapshot mid-playback: no pending seek, looping off,
progress already at 5 s of 9 s. -/
def ctxEx : Ctx :=
  { seek_ts := none, is_looping := false, is_file_preloaded := false,
    is_playing := true, progress := ⟨5, 9⟩, progress_events := [],
    playback_states := [], callbacks := [], metadata_state := none }

/-- A playing engine with an active session over the given packets and a
sink with one buffered sample buffer. -/
def decoderEx (ps : List Packet) : Decoder :=
  { state := .Playing, cpal_output := some sinkEx,
    playback := some (playbackEx ps), preload_playback := none,
    preload_thread := none }

/-- A playing engine owning no session at all. -/
def dNoSession : Decoder :=
  { state := .Playing, cpal_output := none, playback := none,
    preload_playback := none, preload_thread := none }

/-- A source whose container probes fine but holds zero tracks. -/
def srcNoTracks : MediaSource :=
  { probe_ok := true, tracks := [], codec_ok := true, packets := [],
    seekFn := fun _ => none }

/-- A track with a timebase but no total frame count. -/
def trackNoFrames : Track :=
  { id := 0, time_base := some ⟨1, 1⟩, n_frames := none, start_ts := 0 }

/-- A source whose only track has a timebase but no frame count. -/
def srcNoFrames : MediaSource :=
  { probe_ok := true, tracks := [trackNoFrames], codec_ok := true,
    packets := [pktGood 0], seekFn := fun _ => none }

/-- A track with neither timebase nor frame count. -/
def trackNoTimebase : Track :=
  { id := 0, time_base := none, n_frames := none, start_ts := 0 }

/-- A source whose only track has no timebase. -/
def srcNoTimebase : MediaSource :=
  { probe_ok := true, tracks := [trackNoTimebase], codec_ok := true,
    packets := [pktGood 0], seekFn := fun _ => none }

/-! ## C10 — playback step with no active session -/

/-- C10: whenever the engine owns no active session (`playback = none`),
`do_playback` returns "not complete" and changes nothing — neither the
decoder's fields (sink, session, preload fields) nor any shared/published
state — and the surrounding iteration step is the identity on both. -/
theorem C10_no_session_step_is_noop (d : Decoder) (ctx : Ctx)
    (h : d.playback = none) :
    d.do_playback ctx = (d, ctx, .notComplete) ∧
    d.playback_step ctx = (d, ctx) := by
  have h1 : d.do_playback ctx = (d, ctx, .notComplete) := by
    unfold Decoder.do_playback
    rw [h]
  refine ⟨h1, ?_⟩
  unfold Decoder.playback_step
  rw [h1]

/-- Witness for C10 at a concrete playing engine with no session. -/
theorem C10_witness :
    dNoSession.do_playback ctxEx = (dNoSession, ctxEx, .notComplete) ∧
    dNoSession.playback_step ctxEx = (dNoSession, ctxEx) :=
  C10_no_session_step_is_noop dNoSession ctxEx rfl

/-! ## C7 — `PlayPreload` with no completed preload -/

/-- C7: processing `PlayPreload` when no completed preloaded session is
stored returns `Ok(false)` and leaves the engine (state, session, sink,
preload fields) and all shared/published state unchanged. -/
theorem C7_play_preload_without_preload_is_noop (d : Decoder) (ctx : Ctx)
    (h : d.preload_playback = none) :
    d.listen_for_message ctx (some .PlayPreload) = (d, ctx, .cont) := by
  unfold Decoder.listen_for_message
  rw [h]
  rfl

/-- Witness for C7 at a concrete playing engine with no stored preload. -/
theorem C7_witness :
    (decoderEx [pktGood 3]).listen_for_message ctxEx (some .PlayPreload) =
      (decoderEx [pktGood 3], ctxEx, .cont) :=
  C7_play_preload_without_preload_is_noop (decoderEx [pktGood 3]) ctxEx rfl

/-! ## C2 — `Stop` -/

/-- C2 as stated is false on the code: processing `Stop` never touches the
progress state.  At an engine whose published progress is `{5, 9}`,
processing `Stop` leaves the progress at `{5, 9}`, not `{0, 0}`. -/
theorem C2_counterexample :
    ((decoderEx [pktGood 3]).listen_for_message ctxEx
        (some .Stop)).2.1.progress ≠ ProgressState.mk 0 0 := by
  decide

/-- C2 amended: for every prior state, processing `Stop` sets the engine
state to `Idle` and drops the sink and the session, and changes nothing
else; in particular the progress state keeps its previous value (it is reset
only by the finish sequence, not by `Stop`). -/
theorem C2_stop_amended (d : Decoder) (ctx : Ctx) :
    d.listen_for_message ctx (some .Stop) =
      ({ d with state := .Idle, cpal_output := none, playback := none },
       ctx, .cont) :=
  rfl

/-! ## C5 — failed `Open` -/

/-- C5 as stated is false on the code: `Open` drops the current sink before
attempting the open, so after a failed open the engine is not in its prior
state.  At a playing engine with a live sink, a failed `Open` leaves
`cpal_output = none` where a sink was alive before. -/
theorem C5_counterexample :
    ((decoderEx [pktGood 3]).listen_for_message ctxEx
        (some (.Open srcNoTracks))).1.cpal_output ≠
      (decoderEx [pktGood 3]).cpal_output := by
  decide

/-- Any playback step can only append to the published callback stream. -/
theorem do_playback_callbacks_append (d : Decoder) (ctx : Ctx) :
    ∃ tail, (d.do_playback ctx).2.1.callbacks = ctx.callbacks ++ tail := by
  unfold Decoder.do_playback
  repeat' first
    | (exact ⟨[], (List.append_nil _).symm⟩)
    | (exact ⟨[.PlaybackLooped], rfl⟩)
    | split
    | (dsimp only)

/-- The playback part of an iteration can only append to the published
callback stream. -/
theorem playback_step_callbacks_append (d : Decoder) (ctx : Ctx) :
    ∃ tail, (d.playback_step ctx).2.callbacks = ctx.callbacks ++ tail := by
  obtain ⟨t, ht⟩ := do_playback_callbacks_append d ctx
  unfold Decoder.playback_step
  try dsimp only
  split
  · exact ⟨t, by simpa [Decoder.finish_playback] using ht⟩
  · exact ⟨t, ht⟩
  · exact ⟨t ++ [.DecodeError], by
      try dsimp only
      rw [ht, List.append_assoc]⟩

/-- C5 amended: for every prior engine state, an `Open` whose source fails
to open (e.g. a source with zero tracks) returns the error outcome and
leaves the previously active session, the engine state, and every other
field exactly as before the command — except the sink, which `Open` drops
before attempting the open.  Moreover, in the loop iteration carrying the
failed `Open`, the failure is surfaced as a `DecodeError` notification
appended to the callback stream (again for every prior state; anything a
subsequent playback step publishes comes after it). -/
theorem C5_open_error_amended (d : Decoder) (ctx : Ctx) (src : MediaSource)
    (hopen : Decoder.openSource src = .err) :
    d.listen_for_message ctx (some (.Open src)) =
      ({ d with cpal_output := none }, ctx, .err) ∧
    ∃ tail,
      (d.engine_iter ctx
          { fin := false, msg := some (.Open src) }).2.1.callbacks =
        ctx.callbacks ++ [Callback.DecodeError] ++ tail := by
  have h1 : d.listen_for_message ctx (some (.Open src)) =
      ({ d with cpal_output := none }, ctx, .err) := by
    unfold Decoder.listen_for_message
    simp only [hopen]
  refine ⟨h1, ?_⟩
  have hpoll : d.poll_preload_thread ctx false = (d, ctx, false) := by
    unfold Decoder.poll_preload_thread
    cases d.preload_thread <;> rfl
  unfold Decoder.engine_iter
  try dsimp only
  rw [hpoll]
  simp only [Bool.false_eq_true, if_false, h1, eq_self_iff_true, if_true]
  try dsimp only
  split
  · exact ⟨[], by simp⟩
  · obtain ⟨t, ht⟩ := playback_step_callbacks_append
      ({ d with cpal_output := none })
      ({ ctx with callbacks := ctx.callbacks ++ [Callback.DecodeError] })
    exact ⟨t, by rw [ht]⟩

/-- Witness for C5: a playing engine with an active session and a live
sink, opening the zero-track source. -/
theorem C5_witness :
    (decoderEx [pktGood 3]).listen_for_message ctxEx
        (some (.Open srcNoTracks)) =
      ({ decoderEx [pktGood 3] with cpal_output := none }, ctxEx, .err) ∧
    ∃ tail,
      ((decoderEx [pktGood 3]).engine_iter ctxEx
          { fin := false, msg := some (.Open srcNoTracks) }).2.1.callbacks =
        ctxEx.callbacks ++ [Callback.DecodeError] ++ tail :=
  C5_open_error_amended (decoderEx [pktGood 3]) ctxEx srcNoTracks rfl

/-! ## C8 — duration computation at open time -/

/-- C8 is the spec's intent but the code slips: `open` computes the duration
once at open time, and yields duration 0 when the timebase is missing, but
when a timebase exists and the frame count is missing it calls
`ts.unwrap()` on `None` and panics instead of falling back to 0. -/
theorem C8_open_panics_on_missing_frame_count :
    Decoder.openSource srcNoFrames = .panicked ∧
    ∃ p, Decoder.openSource srcNoTimebase = .ok p ∧ p.duration = 0 :=
  ⟨rfl, ⟨_, rfl, rfl⟩⟩

/-! ## C3 — end of stream with looping disabled -/

/-- C3: when the engine is `Playing`, the session holds no preload buffer,
no seek is pending, and the reader is at end of stream with looping
disabled, the playback step transitions the engine to `Idle`, flushes the
sink, publishes a `Done` playback-state notification, and resets the
progress state to `{0, 0}` (both the shared slot and the published
stream). -/
theorem C3_eos_without_looping (d : Decoder) (ctx : Ctx) (pb : Playback)
    (_hstate : d.state = .Playing)
    (hpb : d.playback = some pb) (hpre : pb.preload = none)
    (hseek : ctx.seek_ts = none) (heos : pb.reader.packets = [])
    (hloop : ctx.is_looping = false) :
    (d.playback_step ctx).1.state = .Idle ∧
    (d.playback_step ctx).1.cpal_output = d.cpal_output.map CpalOutput.flush ∧
    (d.playback_step ctx).2.playback_states = ctx.playback_states ++ [.Done] ∧
    (d.playback_step ctx).2.progress = ⟨0, 0⟩ ∧
    (d.playback_step ctx).2.progress_events = ctx.progress_events ++ [⟨0, 0⟩] := by
  have hnp : pb.reader.next_packet = none := by
    unfold Reader.next_packet
    rw [heos]
  have hdo : d.do_playback ctx = ({ d with playback := some pb }, ctx, .complete) := by
    unfold Decoder.do_playback
    rw [hpb]
    simp only [hpre, hseek, hnp, hloop]
    rfl
  unfold Decoder.playback_step
  rw [hdo]
  simp [Decoder.finish_playback]

/-- Witness for C3: a playing engine whose reader has no packets left,
looping off. -/
theorem C3_witness :
    ((decoderEx []).playback_step ctxEx).1.state = .Idle ∧
    ((decoderEx []).playback_step ctxEx).1.cpal_output =
      (decoderEx []).cpal_output.map CpalOutput.flush ∧
    ((decoderEx []).playback_step ctxEx).2.playback_states =
      ctxEx.playback_states ++ [.Done] ∧
    ((decoderEx []).playback_step ctxEx).2.progress = ⟨0, 0⟩ ∧
    ((decoderEx []).playback_step ctxEx).2.progress_events =
      ctxEx.progress_events ++ [⟨0, 0⟩] :=
  C3_eos_without_looping (decoderEx []) ctxEx (playbackEx []) rfl rfl rfl rfl
    rfl rfl

/-! ## C4 — end of stream with looping enabled -/

/-- C4: when the engine is `Playing`, the session holds no preload buffer,
no seek is pending, and the reader is at end of stream with looping
enabled, the playback step publishes a `PlaybackLooped` notification, sets
the pending seek slot to 0, keeps the session, and stays `Playing` — it
never transitions to `Idle` on this path (no `Done` is published). -/
theorem C4_eos_with_looping (d : Decoder) (ctx : Ctx) (pb : Playback)
    (hstate : d.state = .Playing)
    (hpb : d.playback = some pb) (hpre : pb.preload = none)
    (hseek : ctx.seek_ts = none) (heos : pb.reader.packets = [])
    (hloop : ctx.is_looping = true) :
    (d.playback_step ctx).1.state = .Playing ∧
    (d.playback_step ctx).1.playback = d.playback ∧
    (d.playback_step ctx).2.seek_ts = some 0 ∧
    (d.playback_step ctx).2.callbacks = ctx.callbacks ++ [.PlaybackLooped] ∧
    (d.playback_step ctx).2.playback_states = ctx.playback_states := by
  have hnp : pb.reader.next_packet = none := by
    unfold Reader.next_packet
    rw [heos]
  have hdo : d.do_playback ctx =
      ({ d with playback := some pb },
       { ctx with seek_ts := some 0,
                  callbacks := ctx.callbacks ++ [.PlaybackLooped] },
       .notComplete) := by
    unfold Decoder.do_playback
    rw [hpb]
    simp only [hpre, hseek, hnp, hloop]
    rfl
  unfold Decoder.playback_step
  rw [hdo]
  simp [hstate, hpb]

/-- Witness for C4: a playing engine whose reader has no packets left,
looping on. -/
theorem C4_witness :
    ((decoderEx []).playback_step { ctxEx with is_looping := true }).1.state =
      .Playing ∧
    ((decoderEx []).playback_step { ctxEx with is_looping := true }).1.playback =
      (decoderEx []).playback ∧
    ((decoderEx []).playback_step { ctxEx with is_looping := true }).2.seek_ts =
      some 0 ∧
    ((decoderEx []).playback_step { ctxEx with is_looping := true }).2.callbacks =
      ctxEx.callbacks ++ [.PlaybackLooped] ∧
    ((decoderEx []).playback_step
        { ctxEx with is_looping := true }).2.playback_states =
      ctxEx.playback_states :=
  C4_eos_with_looping (decoderEx []) { ctxEx with is_looping := true }
    (playbackEx []) rfl rfl rfl rfl rfl rfl

/-! ## C9 — decode failure while playing -/

/-- C9: when the next packet belongs to the selected track but fails to
decode, the iteration surfaces a `DecodeError` notification, the engine
stays `Playing`, and the step neither publishes progress nor writes samples
to the sink (no `Done` either). -/
theorem C9_decode_error_keeps_playing (d : Decoder) (ctx : Ctx) (pb : Playback)
    (pkt : Packet) (rest : List Packet)
    (hstate : d.state = .Playing)
    (hpb : d.playback = some pb) (hpre : pb.preload = none)
    (hseek : ctx.seek_ts = none)
    (hpkts : pb.reader.packets = pkt :: rest)
    (htrk : pkt.track_id = pb.track_id) (hbad : pkt.good = false) :
    (d.playback_step ctx).1.state = .Playing ∧
    (d.playback_step ctx).2.callbacks = ctx.callbacks ++ [.DecodeError] ∧
    (d.playback_step ctx).2.progress = ctx.progress ∧
    (d.playback_step ctx).2.progress_events = ctx.progress_events ∧
    (d.playback_step ctx).1.cpal_output = d.cpal_output ∧
    (d.playback_step ctx).2.playback_states = ctx.playback_states := by
  have hnp : pb.reader.next_packet =
      some (pkt, { pb.reader with packets := rest }) := by
    unfold Reader.next_packet
    rw [hpkts]
  have hdo : ∃ pb', d.do_playback ctx =
      ({ d with playback := some pb' }, ctx, .err) := by
    refine ⟨?_, ?_⟩
    · exact { pb with
        reader := { pb.reader with packets := rest },
        decoder := ⟨false⟩ }
    unfold Decoder.do_playback
    rw [hpb]
    simp [hpre, hseek, hnp, htrk, CodecDecoder.decode, hbad]
  obtain ⟨pb', hdo⟩ := hdo
  unfold Decoder.playback_step
  rw [hdo]
  simp [hstate]

/-- Witness for C9: a playing engine whose next packet is corrupt. -/
theorem C9_witness :
    ((decoderEx [pktBad]).playback_step ctxEx).1.state = .Playing ∧
    ((decoderEx [pktBad]).playback_step ctxEx).2.callbacks =
      ctxEx.callbacks ++ [.DecodeError] ∧
    ((decoderEx [pktBad]).playback_step ctxEx).2.progress = ctxEx.progress ∧
    ((decoderEx [pktBad]).playback_step ctxEx).2.progress_events =
      ctxEx.progress_events ∧
    ((decoderEx [pktBad]).playback_step ctxEx).1.cpal_output =
      (decoderEx [pktBad]).cpal_output ∧
    ((decoderEx [pktBad]).playback_step ctxEx).2.playback_states =
      ctxEx.playback_states :=
  C9_decode_error_keeps_playing (decoderEx [pktBad]) ctxEx
    (playbackEx [pktBad]) pktBad [] rfl rfl rfl rfl rfl rfl rfl

/-! ## C1 — two-step seek resolution and stale-packet dropping

The first half of the claim holds: the step that sees a pending seek issues
the reader seek, clears the slot, resets the decoder, discards buffered sink
samples, and decodes nothing.  The second half fails on the code: the
`required_ts` captured from the reader's `SeekedTo` is a local of the very
call that returns early, so on every later call the local `seek_ts` is `0`
and the `packet.ts() < seek_ts` guard never fires — packets behind the seek
target are emitted, not dropped. -/

/-- The buffer decoded from the stale packet the coarse seek lands on. -/
def bufStale : AudioBuf := { spec := 1, capacity := 4, samples := [3] }

/-- The packet the reader is positioned at right after the coarse seek: its
timestamp 100 is behind the `required_ts` 500 the seek reported. -/
def pktStale : Packet :=
  { track_id := 0, ts := 100, good := true, buf := bufStale }

/-- A reader whose coarse seek to 5 s repositions to `pktStale` followed by
a packet at ts 900, reporting `required_ts = 500` (5 s at 100 units/s). -/
def readerSeekEx : Reader :=
  { packets := [pktGood 900],
    seekFn := fun t =>
      if t = 5 then some ([pktStale, pktGood 900], 500) else none }

/-- A session over `readerSeekEx` with timebase 1/100 (100 ts units per
second) and a decoder that is not in its fresh state. -/
def playbackSeekEx : Playback :=
  { reader := readerSeekEx, track_id := 0, decoder := ⟨false⟩,
    timebase := some ⟨1, 100⟩, duration := 9, preload := none }

/-- A playing engine over `playbackSeekEx` with one buffered sink sample. -/
def decoderSeekEx : Decoder :=
  { state := .Playing, cpal_output := some sinkEx,
    playback := some playbackSeekEx, preload_playback := none,
    preload_thread := none }

/-- Shared state with a pending seek request to 5 s. -/
def ctxSeekEx : Ctx := { ctxEx with seek_ts := some 5 }

/-- C1: with a pending seek to 5 s, the first playback step behaves as the
claim says (no decode, slot cleared, reader sought, decoder reset, buffered
sink samples discarded, no progress published); but the second step then
decodes the packet at ts 100 — behind the seek's `required_ts` 500 — and,
contrary to the claim, emits it to the sink (publishing progress at
position 1 s < 5 s) instead of dropping it: the captured `required_ts` is
discarded when the seek-applying call returns. -/
theorem C1_stale_packet_after_seek_is_emitted :
    ((decoderSeekEx.do_playback ctxSeekEx).2.2 = PlaybackOutcome.notComplete ∧
     (decoderSeekEx.do_playback ctxSeekEx).2.1.seek_ts = none ∧
     ((decoderSeekEx.do_playback ctxSeekEx).1.playback.map Playback.decoder) =
       some ⟨true⟩ ∧
     ((decoderSeekEx.do_playback ctxSeekEx).1.playback.map
        fun p => p.reader.packets) = some [pktStale, pktGood 900] ∧
     ((decoderSeekEx.do_playback ctxSeekEx).1.cpal_output.map CpalOutput.ring) =
       some [] ∧
     (decoderSeekEx.do_playback ctxSeekEx).2.1.progress_events = []) ∧
    (pktStale.ts < 500 ∧
     ((decoderSeekEx.do_playback ctxSeekEx).1.do_playback
        (decoderSeekEx.do_playback ctxSeekEx).2.1).2.2 =
       PlaybackOutcome.notComplete ∧
     (((decoderSeekEx.do_playback ctxSeekEx).1.do_playback
        (decoderSeekEx.do_playback ctxSeekEx).2.1).1.cpal_output.map
          CpalOutput.ring) = some [bufStale] ∧
     ((decoderSeekEx.do_playback ctxSeekEx).1.do_playback
        (decoderSeekEx.do_playback ctxSeekEx).2.1).2.1.progress =
       ProgressState.mk 1 9 ∧
     ((decoderSeekEx.do_playback ctxSeekEx).1.do_playback
        (decoderSeekEx.do_playback ctxSeekEx).2.1).2.1.progress_events =
       [ProgressState.mk 1 9]) :=
  ⟨⟨rfl, rfl, rfl, rfl, rfl, rfl⟩, ⟨by decide, rfl, rfl, rfl, rfl⟩⟩

/-! ## C6 — last preload wins

The only place `preload_playback` is ever filled is `poll_preload_thread`,
from the currently stored `preload_thread`, and `PlayPreload` installs a
session only from `preload_playback`.  The invariant `preloadInv Y` states
that the live preload thread (if any) is `Y`'s and any stored ready session
is `Y`'s successful result; the following lemmas show every loop iteration
that does not carry a `Preload` command preserves it. -/

/-- One `do_playback` call never touches the preload bookkeeping fields. -/
theorem do_playback_preserves_preload_fields (d : Decoder) (ctx : Ctx) :
    (d.do_playback ctx).1.preload_playback = d.preload_playback ∧
    (d.do_playback ctx).1.preload_thread = d.preload_thread := by
  unfold Decoder.do_playback
  repeat' first
    | (exact ⟨rfl, rfl⟩)
    | rfl
    | split
    | (dsimp only)

/-- The playback part of an iteration never touches the preload fields. -/
theorem playback_step_preserves_preload_fields (d : Decoder) (ctx : Ctx) :
    (d.playback_step ctx).1.preload_playback = d.preload_playback ∧
    (d.playback_step ctx).1.preload_thread = d.preload_thread := by
  obtain ⟨h1, h2⟩ := do_playback_preserves_preload_fields d ctx
  unfold Decoder.playback_step
  dsimp only
  split <;> simp_all [Decoder.finish_playback]

/-- Processing any message other than a `Preload` keeps the preload thread
and either keeps or clears the stored preloaded session (it never fills
it). -/
theorem listen_preserves_preload_fields (d : Decoder) (ctx : Ctx)
    (recv : Option ThreadMessage)
    (h : ∀ s, recv ≠ some (.Preload s)) :
    (d.listen_for_message ctx recv).1.preload_thread = d.preload_thread ∧
    ((d.listen_for_message ctx recv).1.preload_playback = d.preload_playback ∨
     (d.listen_for_message ctx recv).1.preload_playback = none) := by
  unfold Decoder.listen_for_message
  cases recv with
  | none => exact ⟨rfl, Or.inl rfl⟩
  | some m =>
    cases m with
    | Open source =>
      dsimp only
      split <;> exact ⟨rfl, Or.inl rfl⟩
    | Preload source => exact absurd rfl (h source)
    | PlayPreload =>
      dsimp only
      split
      · exact ⟨rfl, Or.inl rfl⟩
      · exact ⟨rfl, Or.inr rfl⟩
    | Play => exact ⟨rfl, Or.inl rfl⟩
    | Pause => exact ⟨rfl, Or.inl rfl⟩
    | Stop => exact ⟨rfl, Or.inl rfl⟩
    | DeviceChanged => exact ⟨rfl, Or.inl rfl⟩
    | Dispose => exact ⟨rfl, Or.inl rfl⟩

/-- Bookkeeping invariant after a preload of `Y` wins: the live preload
thread (if any) is `Y`'s, and any stored ready session is `Y`'s successful
result. -/
def preloadInv (Y : MediaSource) (d : Decoder) : Prop :=
  (d.preload_thread = none ∨
   d.preload_thread = some (Decoder.spawnPreload Y)) ∧
  (d.preload_playback = none ∨
   ∃ p, preloadRun Y = .ok p ∧ d.preload_playback = some p)

/-- Polling the preload thread preserves the invariant: it can only clear
the thread slot and can only store the thread's own (i.e. `Y`'s) result. -/
theorem poll_preserves_preloadInv (Y : MediaSource) (d : Decoder) (ctx : Ctx)
    (fin : Bool) (h : preloadInv Y d) :
    preloadInv Y (d.poll_preload_thread ctx fin).1 := by
  obtain ⟨ht, hp⟩ := h
  unfold Decoder.poll_preload_thread
  rcases ht with ht | ht <;> rw [ht]
  · exact ⟨Or.inl ht, hp⟩
  · cases fin with
    | false => exact ⟨Or.inr ht, hp⟩
    | true =>
      cases hr : preloadRun Y with
      | error e =>
        simp only [Decoder.spawnPreload, hr]
        exact ⟨Or.inl rfl, hp⟩
      | ok p =>
        simp only [Decoder.spawnPreload, hr]
        exact ⟨Or.inl rfl, Or.inr ⟨p, hr, rfl⟩⟩

/-- The decoder produced by one loop iteration is either the decoder after
poll-then-listen, or that decoder after one playback step (for some
intermediate shared states). -/
theorem engine_iter_decoder_cases (d : Decoder) (ctx : Ctx) (inp : IterInput) :
    ∃ ctx1, ((d.engine_iter ctx inp).1 =
        ((d.poll_preload_thread ctx inp.fin).1.listen_for_message ctx1
          inp.msg).1 ∨
      ∃ ctx2, (d.engine_iter ctx inp).1 =
        ((((d.poll_preload_thread ctx inp.fin).1.listen_for_message ctx1
            inp.msg).1).playback_step ctx2).1) := by
  unfold Decoder.engine_iter
  dsimp only
  repeat' split
  all_goals first
    | exact ⟨_, Or.inl rfl⟩
    | exact ⟨_, Or.inr ⟨_, rfl⟩⟩

/-- A whole loop iteration whose message is not a `Preload` preserves the
invariant. -/
theorem engine_iter_preserves_preloadInv (Y : MediaSource) (d : Decoder)
    (ctx : Ctx) (inp : IterInput)
    (hm : ∀ s, inp.msg ≠ some (.Preload s))
    (h : preloadInv Y d) :
    preloadInv Y (d.engine_iter ctx inp).1 := by
  obtain ⟨ctx1, hc⟩ := engine_iter_decoder_cases d ctx inp
  have hpoll := poll_preserves_preloadInv Y d ctx inp.fin h
  obtain ⟨l1, l2⟩ := listen_preserves_preload_fields
    (d.poll_preload_thread ctx inp.fin).1 ctx1 inp.msg hm
  have hlisten : preloadInv Y
      (((d.poll_preload_thread ctx inp.fin).1).listen_for_message ctx1
        inp.msg).1 := by
    obtain ⟨pt, pp⟩ := hpoll
    refine ⟨?_, ?_⟩
    · rw [l1]; exact pt
    · rcases l2 with l2 | l2
      · rw [l2]; exact pp
      · exact Or.inl l2
  rcases hc with hc | ⟨ctx2, hc⟩
  · rw [hc]; exact hlisten
  · rw [hc]
    obtain ⟨s1, s2⟩ := playback_step_preserves_preload_fields
      ((((d.poll_preload_thread ctx inp.fin).1).listen_for_message ctx1
        inp.msg).1) ctx2
    obtain ⟨a1, a2⟩ := hlisten
    exact ⟨by rw [s2]; exact a1, by rw [s1]; exact a2⟩

/-- Every state reached by running iterations without further `Preload`
commands from an invariant state satisfies the invariant. -/
theorem runStates_preloadInv (Y : MediaSource) :
    ∀ (inps : List IterInput) (d : Decoder) (ctx : Ctx),
      preloadInv Y d →
      (∀ i ∈ inps, ∀ s, i.msg ≠ some (.Preload s)) →
      ∀ st ∈ Decoder.runStates d ctx inps, preloadInv Y st.1 := by
  intro inps
  induction inps with
  | nil =>
    intro d ctx _ _ st hst
    simp [Decoder.runStates] at hst
  | cons i rest ih =>
    intro d ctx hinv hm st hst
    have hmi : ∀ s, i.msg ≠ some (.Preload s) :=
      hm i (List.mem_cons_self i rest)
    have h1 := engine_iter_preserves_preloadInv Y d ctx i hmi hinv
    unfold Decoder.runStates at hst
    dsimp only at hst
    rcases List.mem_cons.mp hst with hst | hst
    · rw [hst]; exact h1
    · by_cases hcont : (d.engine_iter ctx i).2.2 = .cont
      · rw [if_pos hcont] at hst
        exact ih (d.engine_iter ctx i).1 (d.engine_iter ctx i).2.1 h1
          (fun j hj s => hm j (List.mem_cons_of_mem i hj) s) st hst
      · rw [if_neg hcont] at hst
        cases hst

/-- Processing a `Preload(s)` command in a loop iteration stores `s`'s
fresh thread and clears any stored ready session, whatever happened
before. -/
theorem engine_iter_preload_msg (d : Decoder) (ctx : Ctx) (f : Bool)
    (s : MediaSource) :
    (d.engine_iter ctx ⟨f, some (.Preload s)⟩).1.preload_thread =
      some (Decoder.spawnPreload s) ∧
    (d.engine_iter ctx ⟨f, some (.Preload s)⟩).1.preload_playback = none := by
  obtain ⟨ctx1, hc⟩ := engine_iter_decoder_cases d ctx ⟨f, some (.Preload s)⟩
  rcases hc with hc | ⟨ctx2, hc⟩ <;> rw [hc]
  · exact ⟨rfl, rfl⟩
  · obtain ⟨s1, s2⟩ := playback_step_preserves_preload_fields
      ((((d.poll_preload_thread ctx
          (⟨f, some (.Preload s)⟩ : IterInput).fin).1).listen_for_message
        ctx1 (⟨f, some (.Preload s)⟩ : IterInput).msg).1) ctx2
    exact ⟨by rw [s2]; rfl, by rw [s1]; rfl⟩

/-- C6: after a `Preload(X)` iteration followed — while X's preload task is
still unfinished (`fin = false` at the poll) — by a `Preload(Y)` iteration,
the engine holds Y's fresh preload thread and no stored ready session; and
along any further run whose messages contain no `Preload`, every reached
state stores at most `Y`'s successful result as the ready preloaded session
(and at most `Y`'s thread).  Since `PlayPreload` installs a session only
from that slot, only `Y`'s session can ever reach `PlayPreload`
(last-preload-wins); `X`'s abandoned task result is never stored. -/
theorem C6_last_preload_wins (d : Decoder) (ctx : Ctx) (X Y : MediaSource)
    (f1 : Bool) (inps : List IterInput)
    (hm : ∀ i ∈ inps, ∀ s, i.msg ≠ some (.Preload s)) :
    ((d.engine_iter ctx ⟨f1, some (.Preload X)⟩).1.engine_iter
        (d.engine_iter ctx ⟨f1, some (.Preload X)⟩).2.1
        ⟨false, some (.Preload Y)⟩).1.preload_thread =
      some (Decoder.spawnPreload Y) ∧
    ((d.engine_iter ctx ⟨f1, some (.Preload X)⟩).1.engine_iter
        (d.engine_iter ctx ⟨f1, some (.Preload X)⟩).2.1
        ⟨false, some (.Preload Y)⟩).1.preload_playback = none ∧
    ∀ st ∈ Decoder.runStates
        ((d.engine_iter ctx ⟨f1, some (.Preload X)⟩).1.engine_iter
          (d.engine_iter ctx ⟨f1, some (.Preload X)⟩).2.1
          ⟨false, some (.Preload Y)⟩).1
        ((d.engine_iter ctx ⟨f1, some (.Preload X)⟩).1.engine_iter
          (d.engine_iter ctx ⟨f1, some (.Preload X)⟩).2.1
          ⟨false, some (.Preload Y)⟩).2.1 inps,
      (st.1.preload_thread = none ∨
       st.1.preload_thread = some (Decoder.spawnPreload Y)) ∧
      (st.1.preload_playback = none ∨
       ∃ p, preloadRun Y = .ok p ∧ st.1.preload_playback = some p) := by
  obtain ⟨h1, h2⟩ := engine_iter_preload_msg
    (d.engine_iter ctx ⟨f1, some (.Preload X)⟩).1
    (d.engine_iter ctx ⟨f1, some (.Preload X)⟩).2.1 false Y
  refine ⟨h1, h2, ?_⟩
  exact runStates_preloadInv Y inps _ _ ⟨Or.inr h1, Or.inl h2⟩ hm

/-- Witness for C6: two concrete preloads delivered back to back, followed
by one `PlayPreload` iteration. -/
theorem C6_witness :
    ((dNoSession.engine_iter ctxEx
        ⟨true, some (.Preload srcNoTimebase)⟩).1.engine_iter
        (dNoSession.engine_iter ctxEx
          ⟨true, some (.Preload srcNoTimebase)⟩).2.1
        ⟨false, some (.Preload srcNoFrames)⟩).1.preload_thread =
      some (Decoder.spawnPreload srcNoFrames) ∧
    ((dNoSession.engine_iter ctxEx
        ⟨true, some (.Preload srcNoTimebase)⟩).1.engine_iter
        (dNoSession.engine_iter ctxEx
          ⟨true, some (.Preload srcNoTimebase)⟩).2.1
        ⟨false, some (.Preload srcNoFrames)⟩).1.preload_playback = none ∧
    ∀ st ∈ Decoder.runStates
        ((dNoSession.engine_iter ctxEx
          ⟨true, some (.Preload srcNoTimebase)⟩).1.engine_iter
          (dNoSession.engine_iter ctxEx
            ⟨true, some (.Preload srcNoTimebase)⟩).2.1
          ⟨false, some (.Preload srcNoFrames)⟩).1
        ((dNoSession.engine_iter ctxEx
          ⟨true, some (.Preload srcNoTimebase)⟩).1.engine_iter
          (dNoSession.engine_iter ctxEx
            ⟨true, some (.Preload srcNoTimebase)⟩).2.1
          ⟨false, some (.Preload srcNoFrames)⟩).2.1
        [⟨true, some .PlayPreload⟩],
      (st.1.preload_thread = none ∨
       st.1.preload_thread = some (Decoder.spawnPreload srcNoFrames)) ∧
      (st.1.preload_playback = none ∨
       ∃ p, preloadRun srcNoFrames = .ok p ∧
         st.1.preload_playback = some p) :=
  C6_last_preload_wins dNoSession ctxEx srcNoTimebase srcNoFrames true
    [⟨true, some .PlayPreload⟩]
    (by
      intro i hi s h
      simp only [List.mem_singleton] at hi
      subst hi
      simp at h)
